import Mathlib

/-!
Verification of the session-negotiation and operation-submission engine of
`src/platform/linux-dpdk/odp_crypto.c` (odp-dpdk).  All definitions below are
shallow embeddings of the C functions of that file; machine integers are
modelled as `Nat` with explicit `% 2^16` where 16-bit overflow matters, and
calls into external collaborators (the DPDK cryptodev driver, packet pools,
shared memory) are modelled as oracle parameters recording their outcome.
-/

namespace OdpCrypto

/-- `MAX_SESSIONS` (odp_crypto.c line 36): capacity of the session pool. -/
def MAX_SESSIONS : Nat := 2048

/-- `MAX_IV_LENGTH` (odp_crypto.c line 39). -/
def MAX_IV_LENGTH : Nat := 16

/-- Modulus of C `uint16_t` arithmetic. -/
def U16 : Nat := 65536

/-- `struct rte_crypto_param_range`: (min, max, increment), all 16-bit. -/
structure ParamRange where
  min : Nat
  max : Nat
  increment : Nat
deriving DecidableEq, Repr

/-- The scan loop of `is_valid_size` (odp_crypto.c lines 88-93):
`for (supp_size = min; supp_size <= max; supp_size += increment)` with a
16-bit counter, returning `some 0` on `length == supp_size` and `some (-1)`
when the loop condition fails.  The loop need not terminate (the 16-bit
counter can wrap), so it is embedded with explicit fuel; `none` means the
fuel ran out without the loop returning. -/
def scan_loop (length max increment : Nat) : Nat → Nat → Option Int
  | 0, _ => none
  | fuel + 1, supp_size =>
    if supp_size ≤ max then
      if length = supp_size then some 0
      else scan_loop length max increment fuel ((supp_size + increment) % U16)
    else some (-1)

/-- `is_valid_size` (odp_crypto.c lines 77-96).  The fuel `U16 + 1` exceeds the
number of distinct 16-bit counter states, so `none` occurs only when the C
loop diverges. -/
def is_valid_size (length : Nat) (range : ParamRange) : Option Int :=
  if length < range.min then some (-1)
  else if range.min ≠ length ∧ range.increment = 0 then some (-1)
  else scan_loop length range.max range.increment (U16 + 1) range.min

/-- The spec's acceptance predicate for an `AlgorithmRange` (spec.md §3):
`s` is supported iff `s >= min`, and either `s == min` or `increment > 0` and
`(s - min) % increment == 0`, and `s <= max`. -/
def size_supported_spec (s : Nat) (r : ParamRange) : Prop :=
  r.min ≤ s ∧ (s = r.min ∨ (0 < r.increment ∧ (s - r.min) % r.increment = 0)) ∧
    s ≤ r.max

instance (s : Nat) (r : ParamRange) : Decidable (size_supported_spec s r) := by
  unfold size_supported_spec
  infer_instance

/-- C5: the claim states `is_valid_size` accepts exactly the sizes of the
spec predicate.  The code's 16-bit loop counter wraps around: with range
(min 65000, max 65535, increment 33000) the counter visits 65000, 32464,
65464, so length 65464 is accepted (return 0) although
(65464 - 65000) % 33000 = 464 ≠ 0, i.e. the spec predicate rejects it. -/
theorem C5_wraparound_acceptance :
    is_valid_size 65464 ⟨65000, 65535, 33000⟩ = some 0 ∧
    ¬ size_supported_spec 65464 ⟨65000, 65535, 33000⟩ := by
  constructor
  · decide
  · decide

/-- C10: the claim states `is_valid_size` terminates on every 16-bit input.
It does not: with length 3 and range (min 0, max 65535, increment 2) the
counter steps through even values only, the loop condition
`supp_size <= 65535` never fails (the counter wraps 65534 → 0), and length 3
is never hit, so no amount of fuel makes the loop return: `is_valid_size`
diverges (`none`) at that input. -/
theorem C10_scan_loop_divergence :
    (∀ fuel supp_size, supp_size % 2 = 0 → supp_size < U16 →
        scan_loop 3 65535 2 fuel supp_size = none) ∧
    is_valid_size 3 ⟨0, 65535, 2⟩ = none := by
  have key : ∀ fuel supp_size, supp_size % 2 = 0 → supp_size < U16 →
      scan_loop 3 65535 2 fuel supp_size = none := by
    intro fuel
    induction fuel with
    | zero => intro supp_size _ _; rfl
    | succ n ih =>
      intro supp_size h2 hlt
      have hU : U16 = 65536 := rfl
      rw [hU] at hlt
      have hle : supp_size ≤ 65535 := by omega
      have hne : ¬(3 = supp_size) := by omega
      simp only [scan_loop, if_pos hle, if_neg hne]
      apply ih
      · rw [hU]; omega
      · rw [hU]
        exact Nat.mod_lt _ (by norm_num)
  refine ⟨key, ?_⟩
  have h1 : ¬(3 < (0 : Nat)) := by omega
  have h2 : ¬((0 : Nat) ≠ 3 ∧ (2 : Nat) = 0) := by omega
  simp only [is_valid_size, if_neg h1, if_neg h2]
  exact key (U16 + 1) 0 rfl (by decide)

/-- Witness for C10: the divergence theorem applied at fuel 7 and counter 0. -/
theorem C10_scan_loop_divergence_witness :
    scan_loop 3 65535 2 7 0 = none ∧ is_valid_size 3 ⟨0, 65535, 2⟩ = none :=
  ⟨C10_scan_loop_divergence.1 7 0 rfl (by decide), C10_scan_loop_divergence.2⟩

/-- `odp_cipher_alg_t`: the cipher algorithm identifiers handled by the file
(deprecated aliases omitted). -/
inductive OdpCipherAlg
  | alg_null | des | trides_cbc | aes_cbc | aes_ctr | aes_gcm | aes_ccm
  | kasumi_f8 | snow3g_uea2 | zuc_eea3
deriving DecidableEq, Repr, Fintype

/-- `odp_auth_alg_t`: the auth algorithm identifiers handled by the file
(deprecated aliases omitted). -/
inductive OdpAuthAlg
  | alg_null | md5_hmac | sha1_hmac | sha256_hmac | sha512_hmac | aes_gmac
  | aes_cmac | aes_gcm | aes_ccm | kasumi_f9 | snow3g_uia2 | zuc_eia3
deriving DecidableEq, Repr, Fintype

/-- `odp_crypto_op_t`: operation direction. -/
inductive OdpCryptoOp
  | encode | decode
deriving DecidableEq, Repr, Fintype

/-- `cipher_is_aead` (odp_crypto.c lines 122-134). -/
def cipher_is_aead : OdpCipherAlg → Bool
  | .aes_gcm => true
  | .aes_ccm => true
  | _ => false

/-- `auth_is_aead` (odp_crypto.c lines 136-148). -/
def auth_is_aead : OdpAuthAlg → Bool
  | .aes_gcm => true
  | .aes_ccm => true
  | _ => false

/-- The four possible transform-chain layouts built by
`odp_crypto_session_create` for non-AEAD sessions. -/
inductive XformOrder
  | auth_only | cipher_only | cipher_then_auth | auth_then_cipher
deriving DecidableEq, Repr

/-- Transform-order derivation of `odp_crypto_session_create`
(odp_crypto.c lines 1364-1381): `do_cipher_first = auth_cipher_text` on
encode and its negation on decode, then the cipher-NULL / auth-NULL /
chained selection of `first_xform`. -/
def derive_order (cipher_alg : OdpCipherAlg) (auth_alg : OdpAuthAlg)
    (op : OdpCryptoOp) (auth_cipher_text : Bool) : XformOrder :=
  let do_cipher_first := if op = .encode then auth_cipher_text else !auth_cipher_text
  if cipher_alg = .alg_null then .auth_only
  else if auth_alg = .alg_null then .cipher_only
  else if do_cipher_first then .cipher_then_auth
  else .auth_then_cipher

/-- C6: for non-AEAD session creation the transform order is: auth-only iff
the cipher algorithm is NULL; cipher-only iff the cipher is non-NULL and the
auth algorithm is NULL; cipher-then-auth iff both are non-NULL and
((encode and auth_cipher_text) or (decode and not auth_cipher_text));
auth-then-cipher in all remaining cases. -/
theorem C6_transform_order :
    ∀ (c : OdpCipherAlg) (a : OdpAuthAlg) (op : OdpCryptoOp)
      (auth_cipher_text : Bool),
      (derive_order c a op auth_cipher_text = .auth_only ↔ c = .alg_null) ∧
      (derive_order c a op auth_cipher_text = .cipher_only ↔
        (c ≠ .alg_null ∧ a = .alg_null)) ∧
      (derive_order c a op auth_cipher_text = .cipher_then_auth ↔
        (c ≠ .alg_null ∧ a ≠ .alg_null ∧
          ((op = .encode ∧ auth_cipher_text = true) ∨
           (op = .decode ∧ auth_cipher_text = false)))) ∧
      (derive_order c a op auth_cipher_text = .auth_then_cipher ↔
        (c ≠ .alg_null ∧ a ≠ .alg_null ∧
          ¬((op = .encode ∧ auth_cipher_text = true) ∨
            (op = .decode ∧ auth_cipher_text = false)))) := by
  intro c a op auth_cipher_text
  cases c <;> cases a <;> cases op <;> cases auth_cipher_text <;> decide

/-- `enum rte_crypto_cipher_algorithm` values produced by
`cipher_alg_odp_to_rte` (odp_crypto.c lines 194-230). -/
inductive RteCipherAlgo
  | rte_null | trides_cbc | aes_cbc | aes_ctr | kasumi_f8 | snow3g_uea2
  | zuc_eea3
deriving DecidableEq, Repr

/-- `enum rte_crypto_auth_algorithm` values produced by
`auth_alg_odp_to_rte` (odp_crypto.c lines 232-280). -/
inductive RteAuthAlgo
  | rte_null | md5_hmac | sha256_hmac | sha1_hmac | sha512_hmac | aes_gmac
  | aes_cmac | kasumi_f9 | snow3g_uia2 | zuc_eia3
deriving DecidableEq, Repr

/-- `enum rte_crypto_aead_algorithm`. -/
inductive RteAeadAlgo
  | aes_gcm | aes_ccm
deriving DecidableEq, Repr

/-- One entry of a device's `rte_cryptodev_capabilities` array: the
`xform_type` tag together with the fields the selection code reads. -/
inductive CapEntry
  | cipher (algo : RteCipherAlgo) (key_size iv_size : ParamRange)
  | auth (algo : RteAuthAlgo) (key_size iv_size digest_size : ParamRange)
  | aead (algo : RteAeadAlgo) (key_size iv_size digest_size aad_size : ParamRange)
deriving DecidableEq, Repr

/-- The fields of `rte_crypto_sym_xform.cipher` read by `get_crypto_dev`. -/
structure CipherXform where
  algo : RteCipherAlgo
  key_length : Nat
  iv_length : Nat
deriving DecidableEq, Repr

/-- The fields of `rte_crypto_sym_xform.auth` read by `get_crypto_dev`. -/
structure AuthXform where
  algo : RteAuthAlgo
  key_length : Nat
  digest_length : Nat
  iv_length : Nat
deriving DecidableEq, Repr

/-- The capability-scan loop of `get_crypto_dev` for the cipher transform
(odp_crypto.c lines 1097-1102): the first entry whose xform type is CIPHER
and whose algorithm matches. -/
def find_cipher_cap : List CapEntry → RteCipherAlgo → Option (ParamRange × ParamRange)
  | [], _ => none
  | .cipher a ks ivs :: rest, algo =>
    if a = algo then some (ks, ivs) else find_cipher_cap rest algo
  | _ :: rest, algo => find_cipher_cap rest algo

/-- The capability-scan loop of `get_crypto_dev` for the auth transform
(odp_crypto.c lines 1127-1132): the first entry whose xform type is AUTH and
whose algorithm matches; yields (key_size, iv_size, digest_size). -/
def find_auth_cap : List CapEntry → RteAuthAlgo → Option (ParamRange × ParamRange × ParamRange)
  | [], _ => none
  | .auth a ks ivs ds :: rest, algo =>
    if a = algo then some (ks, ivs, ds) else find_auth_cap rest algo
  | _ :: rest, algo => find_auth_cap rest algo

/-- A size passes a range check when `is_valid_size` returns 0
(`is_valid_size(...) != 0` makes the C code reject the device). -/
def size_ok (length : Nat) (r : ParamRange) : Bool :=
  is_valid_size length r == some 0

/-- The cipher-side checks of `get_crypto_dev` (odp_crypto.c lines
1097-1120): a matching CIPHER capability entry must exist, the key length
must be valid, and the IV length must be at most `MAX_IV_LENGTH` and valid. -/
def cipher_checks_ok (cx : CipherXform) (caps : List CapEntry) : Bool :=
  match find_cipher_cap caps cx.algo with
  | none => false
  | some (ks, ivs) =>
    size_ok cx.key_length ks &&
    !(decide (cx.iv_length > MAX_IV_LENGTH)) && size_ok cx.iv_length ivs

/-- The auth-side checks of `get_crypto_dev` (odp_crypto.c lines 1127-1157):
a matching AUTH capability entry must exist, the key length and digest length
must be valid, and the IV length must be at most `MAX_IV_LENGTH` and valid. -/
def auth_checks_ok (ax : AuthXform) (caps : List CapEntry) : Bool :=
  match find_auth_cap caps ax.algo with
  | none => false
  | some (ks, ivs, ds) =>
    size_ok ax.key_length ks && size_ok ax.digest_length ds &&
    !(decide (ax.iv_length > MAX_IV_LENGTH)) && size_ok ax.iv_length ivs

/-- The per-device body of `get_crypto_dev`'s loop (odp_crypto.c lines
1094-1161) with its goto structure: a NULL cipher jumps over the cipher
checks to `check_auth`; at `check_auth`, a NULL auth jumps to `check_finish`
only when the cipher is non-NULL. -/
def dev_ok (cx : CipherXform) (ax : AuthXform) (caps : List CapEntry) : Bool :=
  (if cx.algo = .rte_null then true else cipher_checks_ok cx caps) &&
  (if ax.algo = .rte_null ∧ cx.algo ≠ .rte_null then true
   else auth_checks_ok ax caps)

/-- `get_crypto_dev` (odp_crypto.c lines 1082-1165): scan the enabled
devices (id, capability array) in order and return the first accepted
device id; `none` models the -1 failure return. -/
def get_crypto_dev : List (Nat × List CapEntry) → CipherXform → AuthXform → Option Nat
  | [], _, _ => none
  | (cdev_id, caps) :: rest, cx, ax =>
    if dev_ok cx ax caps then some cdev_id else get_crypto_dev rest cx ax

/-- The fields of `rte_crypto_sym_xform.aead` read by
`get_crypto_aead_dev`. -/
structure AeadXform where
  algo : RteAeadAlgo
  key_length : Nat
  iv_length : Nat
  digest_length : Nat
deriving DecidableEq, Repr

/-- The capability-scan loop of `get_crypto_aead_dev` (odp_crypto.c lines
1043-1048): the first entry whose xform type is AEAD and whose algorithm
matches; yields (key_size, iv_size, digest_size). -/
def find_aead_cap : List CapEntry → RteAeadAlgo → Option (ParamRange × ParamRange × ParamRange)
  | [], _ => none
  | .aead a ks ivs ds _ :: rest, algo =>
    if a = algo then some (ks, ivs, ds) else find_aead_cap rest algo
  | _ :: rest, algo => find_aead_cap rest algo

/-- The per-device checks of `get_crypto_aead_dev` (odp_crypto.c lines
1050-1076): a matching AEAD capability entry must exist, the key length must
be valid, the IV length must be at most `MAX_IV_LENGTH` and valid, and the
digest length must be valid. -/
def aead_checks_ok (ax : AeadXform) (caps : List CapEntry) : Bool :=
  match find_aead_cap caps ax.algo with
  | none => false
  | some (ks, ivs, ds) =>
    size_ok ax.key_length ks &&
    !(decide (ax.iv_length > MAX_IV_LENGTH)) && size_ok ax.iv_length ivs &&
    size_ok ax.digest_length ds

/-- `get_crypto_aead_dev` (odp_crypto.c lines 1031-1080): scan the enabled
devices in order and return the first one accepting the AEAD transform. -/
def get_crypto_aead_dev : List (Nat × List CapEntry) → AeadXform → Option Nat
  | [], _ => none
  | (cdev_id, caps) :: rest, ax =>
    if aead_checks_ok ax caps then some cdev_id else get_crypto_aead_dev rest ax

/-- Modelled from the claim's words (spec.md §4.3): a NULL cipher component
and equally a NULL auth component is universally satisfied — its range
checks are skipped, including when both cipher and auth are NULL. -/
def claim_dev_ok (cx : CipherXform) (ax : AuthXform) (caps : List CapEntry) : Bool :=
  (if cx.algo = .rte_null then true else cipher_checks_ok cx caps) &&
  (if ax.algo = .rte_null then true else auth_checks_ok ax caps)

/-- Device selection as the claim describes it: first device accepted by
`claim_dev_ok`. -/
def claim_get_crypto_dev : List (Nat × List CapEntry) → CipherXform → AuthXform → Option Nat
  | [], _, _ => none
  | (cdev_id, caps) :: rest, cx, ax =>
    if claim_dev_ok cx ax caps then some cdev_id else claim_get_crypto_dev rest cx ax

/-- The NULL-cipher transform as built for a NULL/NULL session. -/
def null_cipher_xform : CipherXform := ⟨.rte_null, 0, 0⟩

/-- The NULL-auth transform as built for a NULL/NULL session. -/
def null_auth_xform : AuthXform := ⟨.rte_null, 0, 0, 0⟩

/-- C2 counterexample: with a single enabled device advertising no
capability entries and a NULL cipher plus NULL auth request, the claim says
every range check is skipped and the device is selected, but the code still
looks up a NULL-auth AUTH capability entry, finds none, and fails. -/
theorem C2_counterexample :
    get_crypto_dev [(0, [])] null_cipher_xform null_auth_xform = none ∧
    claim_get_crypto_dev [(0, [])] null_cipher_xform null_auth_xform = some 0 := by
  decide

/-- C2 amended: selection returns the first enabled device (in scan order)
accepted by the per-device check; that check skips the cipher range checks
iff the cipher is NULL, skips the auth range checks iff the auth is NULL and
the cipher is non-NULL, and with both cipher and auth NULL it still requires
a NULL-auth capability entry passing the auth range checks; the AEAD
selector likewise returns the first accepted device; selection fails
(`none`) when no device is accepted. -/
theorem C2_first_fit_selection (devs : List (Nat × List CapEntry))
    (cx : CipherXform) (ax : AuthXform) :
    get_crypto_dev devs cx ax =
      Option.map Prod.fst (devs.find? fun d => dev_ok cx ax d.2) ∧
    (∀ caps, dev_ok cx ax caps =
      if cx.algo = .rte_null then auth_checks_ok ax caps
      else if ax.algo = .rte_null then cipher_checks_ok cx caps
      else cipher_checks_ok cx caps && auth_checks_ok ax caps) ∧
    ∀ ax2 : AeadXform, get_crypto_aead_dev devs ax2 =
      Option.map Prod.fst (devs.find? fun d => aead_checks_ok ax2 d.2) := by
  refine ⟨?_, ?_, ?_⟩
  · induction devs with
    | nil => rfl
    | cons d rest ih =>
      obtain ⟨cdev_id, caps⟩ := d
      by_cases h : dev_ok cx ax caps
      · simp [get_crypto_dev, List.find?, h]
      · simp only [get_crypto_dev, if_neg h]
        rw [ih]
        simp [List.find?, h]
  · intro caps
    by_cases hc : cx.algo = .rte_null
    · by_cases ha : ax.algo = .rte_null
      · simp [dev_ok, hc, ha]
      · simp [dev_ok, hc, ha]
    · by_cases ha : ax.algo = .rte_null
      · simp [dev_ok, hc, ha]
      · simp [dev_ok, hc, ha]
  · intro ax2
    induction devs with
    | nil => rfl
    | cons d rest ih =>
      obtain ⟨cdev_id, caps⟩ := d
      by_cases h : aead_checks_ok ax2 caps
      · simp [get_crypto_aead_dev, List.find?, h]
      · simp only [get_crypto_aead_dev, if_neg h]
        rw [ih]
        simp [List.find?, h]

/-- The device-registration loop of `odp_crypto_init_global`
(odp_crypto.c lines 380-462): `for (cdev_id = cdev_count - 1; cdev_id >= 0;
cdev_id--)` appends `(cdev_id, nb_queue_pairs(cdev_id))` to the enabled
arrays, so devices are registered from the highest id down.  `qp_conf` lists
the per-device configured queue-pair count, indexed by device id
(`min(odp_cpu_count(), dev_info.max_nb_queue_pairs)` in the C code). -/
def init_dev_loop (qp_conf : List Nat) : Nat → List (Nat × Nat)
  | 0 => []
  | k + 1 => (k, qp_conf.getD k 0) :: init_dev_loop qp_conf k

/-- `global->enabled_crypto_dev_ids` after initialization. -/
def enabled_crypto_dev_ids (qp_conf : List Nat) : List Nat :=
  (init_dev_loop qp_conf qp_conf.length).map Prod.fst

/-- `global->enabled_crypto_dev_nb_qpairs` after initialization: indexed by
position in the enabled list, not by device id. -/
def enabled_crypto_dev_nb_qpairs (qp_conf : List Nat) : List Nat :=
  (init_dev_loop qp_conf qp_conf.length).map Prod.snd

/-- The queue-pair count cached into the session by
`odp_crypto_session_create` (odp_crypto.c line 1413):
`session->cdev_nb_qpairs = global->enabled_crypto_dev_nb_qpairs[cdev_id]`,
indexing the position-indexed array with the selected device id. -/
def session_cdev_nb_qpairs (qp_conf : List Nat) (cdev_id : Nat) : Nat :=
  (enabled_crypto_dev_nb_qpairs qp_conf).getD cdev_id 0

/-- C3: with two devices where device 0 is configured with 3 queue pairs and
device 1 with 5, registration in reverse order makes
`enabled_crypto_dev_nb_qpairs = [5, 3]`, so a session that selected device 1
caches 3 queue pairs instead of the 5 actually configured on device 1: the
array is indexed by enabled-list position but the code indexes it with the
device id. -/
theorem C3_qpair_count_mixup :
    session_cdev_nb_qpairs [3, 5] 1 = 3 ∧
    [3, 5].getD 1 0 = 5 ∧
    enabled_crypto_dev_ids [3, 5] = [1, 0] ∧
    enabled_crypto_dev_nb_qpairs [3, 5] = [5, 3] := by
  decide

/-- `odp_crypto_alg_err_t` values used by the file. -/
inductive OdpCryptoAlgErr
  | err_none | err_iv_invalid | err_icv_check
deriving DecidableEq, Repr

/-- `enum rte_crypto_op_status` values. -/
inductive RteOpStatus
  | not_processed | success | auth_failed | invalid_session | invalid_args
  | status_error
deriving DecidableEq, Repr

/-- The session fields read by the per-call fill functions and by
`odp_crypto_int`: the cipher algorithm (deciding the AEAD path), the
transform IV lengths, whether the creation parameters carried IV data that
was cached in the session, and the digest length. -/
structure OpSession where
  cipher_alg : OdpCipherAlg
  cipher_iv_length : Nat
  auth_iv_length : Nat
  has_cipher_iv_data : Bool
  has_auth_iv_data : Bool
  auth_digest_len : Nat
deriving DecidableEq, Repr

/-- The per-call parameter fields the IV-placement logic reads: whether the
caller supplied explicit cipher/auth IV pointers. -/
structure OpParam where
  has_cipher_iv_ptr : Bool
  has_auth_iv_ptr : Bool
deriving DecidableEq, Repr

/-- Cipher-IV placement of `crypto_fill_sym_param` (odp_crypto.c lines
1678-1694): explicit pointer wins, else the session-cached IV, else
IV_INVALID when the transform requires a non-zero IV length. -/
def fill_sym_rc_cipher (session : OpSession) (param : OpParam) : OdpCryptoAlgErr :=
  if param.has_cipher_iv_ptr then .err_none
  else if session.has_cipher_iv_data then .err_none
  else if session.cipher_iv_length ≠ 0 then .err_iv_invalid
  else .err_none

/-- Auth-IV placement of `crypto_fill_sym_param` (odp_crypto.c lines
1696-1714), same chain on the auth fields. -/
def fill_sym_rc_auth (session : OpSession) (param : OpParam) : OdpCryptoAlgErr :=
  if param.has_auth_iv_ptr then .err_none
  else if session.has_auth_iv_data then .err_none
  else if session.auth_iv_length ≠ 0 then .err_iv_invalid
  else .err_none

/-- IV placement of `crypto_fill_aead_param` (odp_crypto.c lines 1639-1648):
the same chain as the sym cipher IV (the AEAD IV is the session's cipher
IV); `rc_auth` is never written on this path. -/
def fill_aead_rc_cipher (session : OpSession) (param : OpParam) : OdpCryptoAlgErr :=
  if param.has_cipher_iv_ptr then .err_none
  else if session.has_cipher_iv_data then .err_none
  else if session.cipher_iv_length ≠ 0 then .err_iv_invalid
  else .err_none

/-- The cipher outcome after the fill step of `odp_crypto_int`
(odp_crypto.c lines 1785-1790), starting from `ODP_CRYPTO_ALG_ERR_NONE`. -/
def op_rc_cipher (session : OpSession) (param : OpParam) : OdpCryptoAlgErr :=
  if cipher_is_aead session.cipher_alg then fill_aead_rc_cipher session param
  else fill_sym_rc_cipher session param

/-- The auth outcome after the fill step of `odp_crypto_int`. -/
def op_rc_auth (session : OpSession) (param : OpParam) : OdpCryptoAlgErr :=
  if cipher_is_aead session.cipher_alg then .err_none
  else fill_sym_rc_auth session param

/-- The accelerator-status classification switch of `odp_crypto_int`
(odp_crypto.c lines 1827-1840). -/
def classify_status : RteOpStatus → OdpCryptoAlgErr × OdpCryptoAlgErr
  | .success => (.err_none, .err_none)
  | .auth_failed => (.err_none, .err_icv_check)
  | _ => (.err_none, .err_none)

/-- `odp_crypto_packet_result_t` as filled at odp_crypto.c lines 1852-1861
(the hw_err fields, always NONE, are omitted). -/
structure CryptoPacketResult where
  cipher_err : OdpCryptoAlgErr
  auth_err : OdpCryptoAlgErr
  ok : Bool
deriving DecidableEq, Repr

/-- Result construction: `ok` is the conjunction of both outcomes being
`ODP_CRYPTO_ALG_ERR_NONE` (odp_crypto.c lines 1859-1861). -/
def mk_result (rc_cipher rc_auth : OdpCryptoAlgErr) : CryptoPacketResult :=
  ⟨rc_cipher, rc_auth, rc_cipher == .err_none && rc_auth == .err_none⟩

/-- Return of `odp_crypto_int`: -1 (hard failure) or 0 with the result
stored on the output packet. -/
inductive OpReturn
  | hard_fail
  | done (res : CryptoPacketResult)
deriving DecidableEq, Repr

/-- Oracle outcomes of the external calls made by `odp_crypto_int`: output
packet resolution/copy, `rte_crypto_op_alloc`, `rte_cryptodev_enqueue_burst`,
the bounded dequeue-retry loop, and the dequeued `op->status`. -/
structure OpExternals where
  out_pkt_ok : Bool
  op_alloc_ok : Bool
  enqueue_ok : Bool
  dequeue_ok : Bool
  status : RteOpStatus
deriving DecidableEq, Repr

/-- `odp_crypto_int` (odp_crypto.c lines 1723-1882) at the level of outcome
propagation: hard failures return -1; when both fill outcomes are NONE the
descriptor is submitted and the dequeued status classified; otherwise
submission is skipped and the fill outcomes are reported directly; in both
non-hard-failure cases the call returns 0 with the filled-in result. -/
def odp_crypto_int (session : OpSession) (param : OpParam)
    (ext : OpExternals) : OpReturn :=
  if ¬ext.out_pkt_ok then .hard_fail
  else if ¬ext.op_alloc_ok then .hard_fail
  else if op_rc_cipher session param = .err_none ∧
          op_rc_auth session param = .err_none then
    if ¬ext.enqueue_ok then .hard_fail
    else if ¬ext.dequeue_ok then .hard_fail
    else .done (mk_result (classify_status ext.status).1 (classify_status ext.status).2)
  else .done (mk_result (op_rc_cipher session param) (op_rc_auth session param))

/-- C4: accelerator status SUCCESS classifies to NONE/NONE, AUTH_FAILED to
NONE/ICV_CHECK, every other status also to NONE/NONE; every non-hard-failure
return of `odp_crypto_int` carries `ok = true` iff both outcomes are NONE;
and on a completed submission the reported outcomes are exactly the
classification of the dequeued status. -/
theorem C4_outcome_classification :
    classify_status .success = (.err_none, .err_none) ∧
    classify_status .auth_failed = (.err_none, .err_icv_check) ∧
    (∀ st, st ≠ .success → st ≠ .auth_failed →
      classify_status st = (.err_none, .err_none)) ∧
    (∀ session param ext res, odp_crypto_int session param ext = .done res →
      (res.ok = true ↔ (res.cipher_err = .err_none ∧ res.auth_err = .err_none))) ∧
    (∀ session param ext,
      ext.out_pkt_ok = true → ext.op_alloc_ok = true →
      ext.enqueue_ok = true → ext.dequeue_ok = true →
      op_rc_cipher session param = .err_none →
      op_rc_auth session param = .err_none →
      odp_crypto_int session param ext =
        .done (mk_result (classify_status ext.status).1
                         (classify_status ext.status).2)) := by
  refine ⟨rfl, rfl, ?_, ?_, ?_⟩
  · intro st h1 h2
    cases st <;> first
      | rfl
      | exact absurd rfl h1
      | exact absurd rfl h2
  · intro session param ext res h
    have hres : ∃ a b, res = mk_result a b := by
      unfold odp_crypto_int at h
      split at h
      · exact absurd h (by simp)
      · split at h
        · exact absurd h (by simp)
        · split at h
          · split at h
            · exact absurd h (by simp)
            · split at h
              · exact absurd h (by simp)
              · exact ⟨_, _, (OpReturn.done.injEq _ _ ▸ h).symm⟩
          · exact ⟨_, _, (OpReturn.done.injEq _ _ ▸ h).symm⟩
    obtain ⟨a, b, rfl⟩ := hres
    cases a <;> cases b <;> simp [mk_result]
  · intro session param ext h1 h2 h3 h4 h5 h6
    unfold odp_crypto_int
    rw [h1, h2, h3, h4]
    simp [h5, h6]

/-- Witness for C4: the classification conjuncts applied at the ERROR status
and at a concrete AES-CBC session with no IV requirement, where the
completed submission reports the classification of the dequeued status. -/
theorem C4_outcome_classification_witness :
    classify_status .status_error = (.err_none, .err_none) ∧
    odp_crypto_int ⟨.aes_cbc, 0, 0, false, false, 32⟩ ⟨false, false⟩
        ⟨true, true, true, true, .auth_failed⟩ =
      .done (mk_result .err_none .err_icv_check) ∧
    ((mk_result .err_none .err_icv_check).ok = true ↔
      ((mk_result .err_none .err_icv_check).cipher_err = .err_none ∧
       (mk_result .err_none .err_icv_check).auth_err = .err_none)) :=
  ⟨C4_outcome_classification.2.2.1 .status_error (by decide) (by decide),
   C4_outcome_classification.2.2.2.2 ⟨.aes_cbc, 0, 0, false, false, 32⟩
     ⟨false, false⟩ ⟨true, true, true, true, .auth_failed⟩
     rfl rfl rfl rfl rfl rfl,
   C4_outcome_classification.2.2.2.1 ⟨.aes_cbc, 0, 0, false, false, 32⟩
     ⟨false, false⟩ ⟨true, true, true, true, .auth_failed⟩
     (mk_result .err_none .err_icv_check) (by decide)⟩

/-- C8: on a non-AEAD session whose cipher (resp. auth) transform requires a
non-zero IV length, a call with no explicit IV pointer and no session-cached
IV yields that primitive's outcome IV_INVALID with `ok = false`, the other
primitive's outcome still evaluated and reported, and the call completes
normally (`done`, i.e. return 0) rather than hard-failing. -/
theorem C8_missing_iv_soft_error (session : OpSession) (param : OpParam)
    (ext : OpExternals)
    (hout : ext.out_pkt_ok = true) (halloc : ext.op_alloc_ok = true)
    (haead : cipher_is_aead session.cipher_alg = false) :
    (param.has_cipher_iv_ptr = false → session.has_cipher_iv_data = false →
      session.cipher_iv_length ≠ 0 →
      odp_crypto_int session param ext =
        .done (mk_result .err_iv_invalid (fill_sym_rc_auth session param)) ∧
      (mk_result .err_iv_invalid (fill_sym_rc_auth session param)).ok = false) ∧
    (param.has_auth_iv_ptr = false → session.has_auth_iv_data = false →
      session.auth_iv_length ≠ 0 →
      odp_crypto_int session param ext =
        .done (mk_result (fill_sym_rc_cipher session param) .err_iv_invalid) ∧
      (mk_result (fill_sym_rc_cipher session param) .err_iv_invalid).ok = false) := by
  constructor
  · intro hptr hdata hlen
    have hc : op_rc_cipher session param = .err_iv_invalid := by
      simp [op_rc_cipher, haead, fill_sym_rc_cipher, hptr, hdata, hlen]
    have ha : op_rc_auth session param = fill_sym_rc_auth session param := by
      simp [op_rc_auth, haead]
    constructor
    · unfold odp_crypto_int
      rw [hout, halloc, hc, ha]
      simp
    · simp [mk_result]
  · intro hptr hdata hlen
    have ha : op_rc_auth session param = .err_iv_invalid := by
      simp [op_rc_auth, haead, fill_sym_rc_auth, hptr, hdata, hlen]
    have hc : op_rc_cipher session param = fill_sym_rc_cipher session param := by
      simp [op_rc_cipher, haead]
    constructor
    · unfold odp_crypto_int
      rw [hout, halloc, hc, ha]
      simp
    · simp [mk_result]

/-- Witness for C8: an AES-CBC session requiring 16-byte cipher and auth IVs,
called with no explicit IVs and no cached IVs: both outcomes are IV_INVALID,
`ok` is false, and the call still completes. -/
theorem C8_missing_iv_soft_error_witness :
    odp_crypto_int ⟨.aes_cbc, 16, 16, false, false, 32⟩ ⟨false, false⟩
        ⟨true, true, true, true, .success⟩ =
      .done (mk_result .err_iv_invalid
        (fill_sym_rc_auth ⟨.aes_cbc, 16, 16, false, false, 32⟩ ⟨false, false⟩)) ∧
    (mk_result .err_iv_invalid
      (fill_sym_rc_auth ⟨.aes_cbc, 16, 16, false, false, 32⟩ ⟨false, false⟩)).ok
      = false :=
  (C8_missing_iv_soft_error ⟨.aes_cbc, 16, 16, false, false, 32⟩ ⟨false, false⟩
      ⟨true, true, true, true, .success⟩ rfl rfl rfl).1
    rfl rfl (by decide)

/-- The software-side content of a `crypto_session_entry_t` slot, abstracted
to the fields the pool claims refer to; `memset(session, 0, sizeof *session)`
is modelled by writing `SessionRec.zero`. -/
structure SessionRec where
  populated : Bool
  cdev_id : Nat
  nb_qpairs : Nat
deriving DecidableEq, Repr

/-- The all-zero session record. -/
def SessionRec.zero : SessionRec := ⟨false, 0, 0⟩

/-- The session pool of `crypto_global_t`: the intrusive free list is
modelled as the list of free slot indices (head = `global->free`), `mem` is
the slot array, and `live` is ghost instrumentation recording the allocated,
not-yet-freed slots (the spec's in-use count). -/
structure PoolState where
  free : List Nat
  live : List Nat
  mem : Nat → SessionRec

/-- The free-list initialization loop of `odp_crypto_init_global`
(odp_crypto.c lines 339-342): slots 0..n-1 pushed in order, so the head is
slot n-1. -/
def init_free_list : Nat → List Nat
  | 0 => []
  | k + 1 => k :: init_free_list k

/-- Pool state right after `odp_crypto_init_global`. -/
def init_pool : PoolState :=
  ⟨init_free_list MAX_SESSIONS, [], fun _ => SessionRec.zero⟩

/-- `alloc_session` (odp_crypto.c lines 282-295): pop the free-list head, or
return NULL when the pool is exhausted. -/
def alloc_session (s : PoolState) : Option Nat × PoolState :=
  match s.free with
  | [] => (none, s)
  | slot :: rest => (some slot, ⟨rest, slot :: s.live, s.mem⟩)

/-- `free_session` (odp_crypto.c lines 297-303): push the slot back onto the
free-list head. -/
def free_session (slot : Nat) (s : PoolState) : PoolState :=
  ⟨slot :: s.free, s.live.erase slot, s.mem⟩

/-- Write one slot of the session array. -/
def write_session (slot : Nat) (rec : SessionRec) (s : PoolState) : PoolState :=
  ⟨s.free, s.live, fun j => if j = slot then rec else s.mem j⟩

/-- Oracle outcomes of the external calls made by
`odp_crypto_session_create`: whether `rte_cryptodev_count()` is non-zero,
and whether everything after slot allocation succeeds (transform fills,
device selection, `rte_cryptodev_sym_session_create/init`) — all of those
failures reach the same `err:` label.  `record` is the session record
written into the slot on success. -/
structure CreateExt where
  dev_count_nonzero : Bool
  build_ok : Bool
  record : SessionRec
deriving Repr

/-- `odp_crypto_session_create` (odp_crypto.c lines 1292-1439) at the pool
level: fail before allocation when no devices exist; fail `none` when the
pool is exhausted; on any post-allocation failure zero the slot and return
it to the free list (`err:` label, lines 1431-1438), reporting the invalid
handle; on success keep the slot and return its handle. -/
def odp_crypto_session_create (ext : CreateExt) (s : PoolState) :
    Option Nat × PoolState :=
  if ¬ext.dev_count_nonzero then (none, s)
  else
    match alloc_session s with
    | (none, s1) => (none, s1)
    | (some slot, s1) =>
      if ext.build_ok then (some slot, write_session slot ext.record s1)
      else (none, free_session slot (write_session slot SessionRec.zero s1))

/-- Oracle outcomes of the accelerator calls made by
`odp_crypto_session_destroy`: `rte_cryptodev_sym_session_clear` and
`rte_cryptodev_sym_session_free`. -/
structure DestroyExt where
  clear_ok : Bool
  free_ok : Bool
deriving Repr

/-- `odp_crypto_session_destroy` (odp_crypto.c lines 1441-1461): if the
accelerator-side clear fails, return -1 at once; if the accelerator-side
free fails, return -1 at once; only then zero the slot and push it back on
the free list, returning 0. -/
def odp_crypto_session_destroy (slot : Nat) (ext : DestroyExt) (s : PoolState) :
    Int × PoolState :=
  if ¬ext.clear_ok then (-1, s)
  else if ¬ext.free_ok then (-1, s)
  else (0, free_session slot (write_session slot SessionRec.zero s))

/-- The free list built by the initialization loop has one entry per slot. -/
theorem init_free_list_length (n : Nat) : (init_free_list n).length = n := by
  induction n with
  | zero => rfl
  | succ k ih => simp [init_free_list, ih]

/-- C1 counterexample: after creating one session (slot 2047), destroying it
with a failing accelerator clear returns -1 but leaves the free-list length
at 2047 — the slot is NOT returned to the free list, contradicting the
claimed best-effort release (which would make the length 2048). -/
theorem C1_counterexample :
    ((odp_crypto_session_create ⟨true, true, ⟨true, 0, 4⟩⟩ init_pool).2.live
       = [2047]) ∧
    (odp_crypto_session_create ⟨true, true, ⟨true, 0, 4⟩⟩ init_pool).2.free.length
       = 2047 ∧
    (odp_crypto_session_destroy 2047 ⟨false, true⟩
       (odp_crypto_session_create ⟨true, true, ⟨true, 0, 4⟩⟩ init_pool).2).1
       = -1 ∧
    (odp_crypto_session_destroy 2047 ⟨false, true⟩
       (odp_crypto_session_create ⟨true, true, ⟨true, 0, 4⟩⟩ init_pool).2).2.free.length
       = 2047 := by
  have hfree : (odp_crypto_session_create ⟨true, true, ⟨true, 0, 4⟩⟩ init_pool).2.free
      = init_free_list 2047 := rfl
  refine ⟨rfl, ?_, rfl, ?_⟩
  · rw [hfree, init_free_list_length]
  · rw [show (odp_crypto_session_destroy 2047 ⟨false, true⟩
        (odp_crypto_session_create ⟨true, true, ⟨true, 0, 4⟩⟩ init_pool).2).2.free
        = init_free_list 2047 from rfl, init_free_list_length]

/-- C1 amended: if the accelerator-side clear or free call fails,
`odp_crypto_session_destroy` returns -1 and leaves the pool completely
unchanged (the slot is not zeroed and not returned to the free list); only
when both accelerator calls succeed is the slot zeroed and pushed back onto
the free list with return value 0. -/
theorem C1_amended_destroy (slot : Nat) (ext : DestroyExt) (s : PoolState) :
    (ext.clear_ok = false ∨ ext.free_ok = false →
      odp_crypto_session_destroy slot ext s = (-1, s)) ∧
    (ext.clear_ok = true → ext.free_ok = true →
      (odp_crypto_session_destroy slot ext s).1 = 0 ∧
      (odp_crypto_session_destroy slot ext s).2.free = slot :: s.free ∧
      (odp_crypto_session_destroy slot ext s).2.mem slot = SessionRec.zero) := by
  constructor
  · intro h
    rcases h with h | h
    · simp [odp_crypto_session_destroy, h]
    · rcases hc : ext.clear_ok with _ | _
      · simp [odp_crypto_session_destroy, hc]
      · simp [odp_crypto_session_destroy, hc, h]
  · intro hc hf
    simp [odp_crypto_session_destroy, hc, hf, free_session, write_session]

/-- Witness for C1: destroying slot 0 with a failing clear call leaves the
initial pool unchanged and returns -1; with both accelerator calls
succeeding the slot is zeroed and pushed back, returning 0. -/
theorem C1_amended_destroy_witness :
    odp_crypto_session_destroy 0 ⟨false, true⟩ init_pool = (-1, init_pool) ∧
    (odp_crypto_session_destroy 0 ⟨true, true⟩ init_pool).1 = 0 ∧
    (odp_crypto_session_destroy 0 ⟨true, true⟩ init_pool).2.free
      = 0 :: init_pool.free ∧
    (odp_crypto_session_destroy 0 ⟨true, true⟩ init_pool).2.mem 0
      = SessionRec.zero :=
  ⟨(C1_amended_destroy 0 ⟨false, true⟩ init_pool).1 (Or.inl rfl),
   (C1_amended_destroy 0 ⟨true, true⟩ init_pool).2 rfl rfl⟩

/-- C7: any failing `odp_crypto_session_create` call that had already
allocated a slot (devices exist, the pool was non-empty, and a later step
failed) reports no handle, zeroes the slot, and pushes it back onto the free
list, so the free list (hence its length) and the live set are exactly as
before the call. -/
theorem C7_create_failure_rollback (ext : CreateExt) (s : PoolState)
    (slot : Nat) (t : List Nat)
    (hdev : ext.dev_count_nonzero = true) (hbuild : ext.build_ok = false)
    (hfree : s.free = slot :: t) :
    (odp_crypto_session_create ext s).1 = none ∧
    (odp_crypto_session_create ext s).2.free = s.free ∧
    (odp_crypto_session_create ext s).2.free.length = s.free.length ∧
    (odp_crypto_session_create ext s).2.live = s.live ∧
    (odp_crypto_session_create ext s).2.mem slot = SessionRec.zero := by
  have h : odp_crypto_session_create ext s
      = (none, free_session slot (write_session slot SessionRec.zero
          ⟨t, slot :: s.live, s.mem⟩)) := by
    simp [odp_crypto_session_create, alloc_session, hdev, hbuild, hfree]
  rw [h]
  refine ⟨rfl, ?_, ?_, ?_, ?_⟩
  · simp [free_session, write_session, hfree]
  · simp [free_session, write_session, hfree]
  · simp [free_session, write_session]
  · simp [free_session, write_session]

/-- Witness for C7: a failing create on the freshly initialized pool (slot
2047 allocated, build step fails) restores the pool and zeroes the slot. -/
theorem C7_create_failure_rollback_witness :
    (odp_crypto_session_create ⟨true, false, ⟨true, 0, 4⟩⟩ init_pool).1 = none ∧
    (odp_crypto_session_create ⟨true, false, ⟨true, 0, 4⟩⟩ init_pool).2.free
      = init_pool.free ∧
    (odp_crypto_session_create ⟨true, false, ⟨true, 0, 4⟩⟩ init_pool).2.free.length
      = init_pool.free.length ∧
    (odp_crypto_session_create ⟨true, false, ⟨true, 0, 4⟩⟩ init_pool).2.live
      = init_pool.live ∧
    (odp_crypto_session_create ⟨true, false, ⟨true, 0, 4⟩⟩ init_pool).2.mem 2047
      = SessionRec.zero :=
  C7_create_failure_rollback ⟨true, false, ⟨true, 0, 4⟩⟩ init_pool 2047
    (init_free_list 2047) rfl rfl rfl

/-- A pool call: a create with its external outcomes, or a destroy of one
slot with its external outcomes.  Destroys are modelled only for handles of
live sessions (destroying anything else is undefined behaviour in the C
API), which the step function enforces by a membership guard. -/
inductive PoolOp
  | create (ext : CreateExt)
  | destroy (slot : Nat) (ext : DestroyExt)

/-- One create/destroy call acting on the pool. -/
def pool_step (s : PoolState) : PoolOp → PoolState
  | .create ext => (odp_crypto_session_create ext s).2
  | .destroy slot ext =>
    if slot ∈ s.live then (odp_crypto_session_destroy slot ext s).2 else s

/-- A sequence of create/destroy calls. -/
def pool_run (ops : List PoolOp) (s : PoolState) : PoolState :=
  ops.foldl pool_step s

/-- Each single call preserves `free length + live count = MAX_SESSIONS`. -/
theorem pool_step_conservation (s : PoolState) (op : PoolOp)
    (h : s.free.length + s.live.length = MAX_SESSIONS) :
    (pool_step s op).free.length + (pool_step s op).live.length
      = MAX_SESSIONS := by
  cases op with
  | create ext =>
    rcases hd : ext.dev_count_nonzero with _ | _
    · simpa [pool_step, odp_crypto_session_create, hd] using h
    · rcases hfree : s.free with _ | ⟨slot, t⟩
      · simpa [pool_step, odp_crypto_session_create, alloc_session, hd, hfree]
          using h
      · rcases hb : ext.build_ok with _ | _
        · simp only [pool_step, odp_crypto_session_create, alloc_session, hd,
            hfree, hb, Bool.not_true, Bool.false_eq_true, not_false_eq_true,
            if_false, Bool.true_eq_false, if_true]
          simp [free_session, write_session, List.erase_cons_head]
          rw [hfree] at h
          simp at h
          omega
        · simp only [pool_step, odp_crypto_session_create, alloc_session, hd,
            hfree, hb]
          simp [write_session]
          rw [hfree] at h
          simp at h
          omega
  | destroy slot ext =>
    by_cases hmem : slot ∈ s.live
    · rcases hc : ext.clear_ok with _ | _
      · simpa [pool_step, hmem, odp_crypto_session_destroy, hc] using h
      · rcases hf : ext.free_ok with _ | _
        · simpa [pool_step, hmem, odp_crypto_session_destroy, hc, hf] using h
        · simp [pool_step, hmem, odp_crypto_session_destroy, hc, hf,
            free_session, write_session]
          have : 0 < s.live.length := List.length_pos.mpr
            (fun he => by simp [he] at hmem)
          omega
    · simpa [pool_step, hmem] using h

/-- C9: after any sequence of create/destroy calls starting from the
initialized pool, the free-list length plus the in-use count equals
`MAX_SESSIONS`; in particular, whenever no session is live (every created
session has been successfully destroyed) the free-list length is exactly
`MAX_SESSIONS`. -/
theorem C9_pool_conservation (ops : List PoolOp) :
    (pool_run ops init_pool).free.length + (pool_run ops init_pool).live.length
      = MAX_SESSIONS ∧
    ((pool_run ops init_pool).live = [] →
      (pool_run ops init_pool).free.length = MAX_SESSIONS) := by
  have gen : ∀ (l : List PoolOp) (s : PoolState),
      s.free.length + s.live.length = MAX_SESSIONS →
      (pool_run l s).free.length + (pool_run l s).live.length = MAX_SESSIONS := by
    intro l
    induction l with
    | nil => intro s h; exact h
    | cons op rest ih =>
      intro s h
      exact ih _ (pool_step_conservation s op h)
  have hinit : init_pool.free.length + init_pool.live.length = MAX_SESSIONS := by
    simp [init_pool, init_free_list_length]
  have hmain := gen ops init_pool hinit
  refine ⟨hmain, ?_⟩
  intro hlive
  rw [hlive] at hmain
  simpa using hmain

/-- Witness for C9: creating one session and then successfully destroying it
leaves no live session, and the theorem gives back the full free list. -/
theorem C9_pool_conservation_witness :
    (pool_run [.create ⟨true, true, ⟨true, 0, 4⟩⟩, .destroy 2047 ⟨true, true⟩]
      init_pool).free.length = MAX_SESSIONS :=
  (C9_pool_conservation
    [.create ⟨true, true, ⟨true, 0, 4⟩⟩, .destroy 2047 ⟨true, true⟩]).2 rfl

end OdpCrypto
